import Mathlib

/-!
Shallow embedding of the industrial-ai-dashboard repository (Python, pandas/numpy)
in Lean 4, together with proofs about its decision/scoring engine.

Modelling conventions:
* A dataframe is a `List` of row structures; a dataframe column access
  `df['c']` becomes a field access on each row.
* Numeric columns are rationals (`ℚ`); quantities that the source computes with
  `numpy.sqrt` / `numpy.sin` live in `ℝ`.
* Every call to the global random generator (`np.random.uniform`, `normal`,
  `randint`, ...) inside a scoring function is made explicit: the drawn value is
  an extra argument of the Lean function.  Where a claim depends on the support
  of the distribution, that support becomes a hypothesis of the theorem.
* Dates are day numbers in `ℤ`; `dayofweek` is the day number modulo 7.
-/

/-- A row of the machine dataframe (columns from `generate_demo_data`). -/
structure MachineRow where
  machine_id : ℕ
  machine_name : String
  temperature : ℚ
  vibration : ℚ
  operational_hours : ℚ
  last_maintenance : ℤ := 0
  deriving Repr, DecidableEq

/-- A row of the inventory dataframe.  `stock_value` models the extra column
that `calculate_inventory_health` writes onto the dataframe it receives
(`none` while the column is absent). -/
structure InventoryRow where
  product_id : ℕ
  product_name : String
  current_stock : ℚ
  safety_stock : ℚ
  lead_time_days : ℚ
  unit_cost : ℚ
  stock_value : Option ℚ := none
  deriving Repr, DecidableEq

/-- A row of the demand-history dataframe. -/
structure DemandRow where
  date : ℤ
  product_id : ℕ
  demand : ℚ
  deriving Repr, DecidableEq

/-- A row of the operations dataframe. -/
structure OperationsRow where
  area : String
  utilization : ℚ
  productivity_score : ℚ
  downtime_hours : ℚ
  efficiency_rate : ℚ
  throughput : ℚ
  deriving Repr, DecidableEq

/-! ## src/models/decision_engine.py -/

/-- Embedding of `calculate_risk_score(machine_data, inventory_data)`.
`operational_risk` is the value drawn by `np.random.uniform(5, 15)`. -/
def calculate_risk_score (machine_data : List MachineRow)
    (inventory_data : List InventoryRow) (operational_risk : ℚ) : ℚ :=
  let temp_risk : ℚ :=
    (machine_data.countP (fun m => decide (m.temperature > 85)) : ℚ) /
      (machine_data.length : ℚ)
  let vib_risk : ℚ :=
    (machine_data.countP (fun m => decide (m.vibration > 3.5)) : ℚ) /
      (machine_data.length : ℚ)
  let machine_risk := (temp_risk + vib_risk) / 2 * 50
  let low_stock_risk : ℚ :=
    (inventory_data.countP (fun p => decide (p.current_stock < p.safety_stock)) : ℚ)
  let inventory_risk := low_stock_risk / (inventory_data.length : ℚ) * 30
  let total_risk := machine_risk + inventory_risk + operational_risk
  min 100 total_risk

/-- Guarded variant of `calculate_risk_score`, written from the spec's words:
it returns `none` exactly when one of the two divisions of the source
(`/ len(machine_data)` and `/ len(inventory_data)`) would divide by zero, and
otherwise the unguarded score. -/
def calculate_risk_score_checked (machine_data : List MachineRow)
    (inventory_data : List InventoryRow) (operational_risk : ℚ) : Option ℚ :=
  if machine_data.length = 0 ∨ inventory_data.length = 0 then none
  else some (calculate_risk_score machine_data inventory_data operational_risk)

/-- A recommendation dict produced by `generate_recommendations`.  The free-text
`reason`/`impact`/`timeline`/`ai_methods` fields (formatted floats and random
draws interpolated into prose) are not modelled; the claims only concern
`priority`, `category` and which entity is acted on (`action`). -/
structure Recommendation where
  priority : ℕ
  category : String
  action : String
  deriving Repr, DecidableEq

/-- The priority-1 dict appended for each critical machine. -/
def criticalRec (m : MachineRow) : Recommendation :=
  { priority := 1
    category := "Predictive Maintenance"
    action := "Schedule emergency maintenance for " ++ m.machine_name }

/-- The priority-2 dict appended for each of the first three low-stock products. -/
def lowStockRec (p : InventoryRow) : Recommendation :=
  { priority := 2
    category := "Inventory Management"
    action := "Emergency reorder for " ++ p.product_name }

/-- The priority-2 dict appended for each of the first two medium-risk machines. -/
def mediumRiskRec (m : MachineRow) : Recommendation :=
  { priority := 2
    category := "Predictive Maintenance"
    action := "Schedule preventive maintenance for " ++ m.machine_name }

/-- The priority-3 dict appended for each of the first two bottleneck areas. -/
def bottleneckRec (o : OperationsRow) : Recommendation :=
  { priority := 3
    category := "Operations Optimization"
    action := "Optimize resource allocation in " ++ o.area }

/-- The priority-3 dict appended for each of the first two overstock products. -/
def overstockRec (p : InventoryRow) : Recommendation :=
  { priority := 3
    category := "Inventory Optimization"
    action := "Reduce stock level for " ++ p.product_name }

/-- Embedding of `generate_recommendations(machine_data, inventory_data,
operations_data)`: five filter-and-format passes appended in order, then
`list.sort(key=priority)`. -/
def generate_recommendations (machine_data : List MachineRow)
    (inventory_data : List InventoryRow) (operations_data : List OperationsRow) :
    List Recommendation :=
  let critical_machines := machine_data.filter (fun m => decide (m.temperature > 85))
  let critical_recs := critical_machines.map criticalRec
  let low_stock_products :=
    inventory_data.filter (fun p => decide (p.current_stock < p.safety_stock))
  let low_stock_recs := (low_stock_products.take 3).map lowStockRec
  let medium_risk_machines := machine_data.filter
    (fun m => decide (m.temperature > 80 ∧ m.temperature ≤ 85))
  let medium_risk_recs := (medium_risk_machines.take 2).map mediumRiskRec
  let bottlenecks := operations_data.filter (fun o => decide (o.utilization > 85))
  let bottleneck_recs := (bottlenecks.take 2).map bottleneckRec
  let overstock_products :=
    inventory_data.filter (fun p => decide (p.current_stock > p.safety_stock * 2.5))
  let overstock_recs := (overstock_products.take 2).map overstockRec
  (critical_recs ++ low_stock_recs ++ medium_risk_recs ++
    bottleneck_recs ++ overstock_recs).mergeSort
    (fun a b => a.priority ≤ b.priority)

/-! ## src/models/maintenance_models.py -/

/-- Risk level returned by `predict_failure`. -/
inductive RiskLevel where
  | High
  | Medium
  | Low
  deriving Repr, DecidableEq

/-- Result dict of `predict_failure`. -/
structure FailureResult where
  failure_probability : ℚ
  risk_level : RiskLevel
  feature_importance : ℚ × ℚ × ℚ
  temperature_risk : ℚ
  vibration_risk : ℚ
  hours_risk : ℚ
  deriving Repr, DecidableEq

/-- Embedding of `predict_failure(machine)`.  `noise` is the value drawn by
`np.random.uniform(-0.1, 0.1)`. -/
def predict_failure (machine : MachineRow) (noise : ℚ) : FailureResult :=
  let temperature := machine.temperature
  let vibration := machine.vibration
  let operational_hours := machine.operational_hours
  let temp_risk : ℚ := max 0 (min 1 ((temperature - 60) / 40))
  let vib_risk : ℚ := max 0 (min 1 (vibration / 5))
  let hours_risk : ℚ := max 0 (min 1 (operational_hours / 10000))
  let weighted := temp_risk * 0.45 + vib_risk * 0.35 + hours_risk * 0.20
  let failure_probability := max 0.0 (min 1.0 (weighted + noise))
  let risk_level :=
    if failure_probability > 0.6 then RiskLevel.High
    else if failure_probability > 0.3 then RiskLevel.Medium
    else RiskLevel.Low
  { failure_probability := failure_probability
    risk_level := risk_level
    feature_importance := (0.45, 0.35, 0.20)
    temperature_risk := temp_risk
    vibration_risk := vib_risk
    hours_risk := hours_risk }

/-- Result dict of `estimate_rul`. -/
structure RULResult where
  rul_hours : ℚ
  rul_days : ℚ
  confidence : ℚ
  maintenance_date : ℚ
  temp_factor : ℚ
  vib_factor : ℚ
  deriving Repr, DecidableEq

/-- Embedding of `estimate_rul(machine)`.  `c` is the value drawn by
`np.random.uniform(-0.1, 0.1)` for the confidence; `today` is `datetime.now()`
as a (fractional) day number. -/
def estimate_rul (machine : MachineRow) (c : ℚ) (today : ℚ) : RULResult :=
  let max_operational_hours : ℚ := 10000
  let current_hours := machine.operational_hours
  let base_rul_hours := max_operational_hours - current_hours
  let temperature := machine.temperature
  let vibration := machine.vibration
  let temp_factor : ℚ :=
    if temperature > 90 then 0.5
    else if temperature > 85 then 0.7
    else if temperature > 80 then 0.85
    else 1.0
  let vib_factor : ℚ :=
    if vibration > 4.0 then 0.6
    else if vibration > 3.5 then 0.75
    else if vibration > 3.0 then 0.9
    else 1.0
  let adjusted_rul_hours := max 24 (base_rul_hours * temp_factor * vib_factor)
  let rul_days := adjusted_rul_hours / 24
  let confidence := max 0.7 (min 0.95 (0.85 + c))
  { rul_hours := adjusted_rul_hours
    rul_days := rul_days
    confidence := confidence
    maintenance_date := today + rul_days
    temp_factor := temp_factor
    vib_factor := vib_factor }

/-! ## src/models/demand_forecasting.py -/

/-- Mean of a numeric series (pandas `.mean()` / numpy `.mean()`): sum over length. -/
def listMean (xs : List ℚ) : ℚ := xs.sum / (xs.length : ℚ)

/-- Slope returned by `np.polyfit(range(n), ys, 1)[0]`: the closed form of the
degree-1 least-squares fit over x = 0, …, n−1. -/
def slopeFit (ys : List ℚ) : ℚ :=
  let n : ℚ := ys.length
  let pts := ys.enum
  let sx : ℚ := (pts.map (fun p => (p.1 : ℚ))).sum
  let sy : ℚ := ys.sum
  let sxy : ℚ := (pts.map (fun p => (p.1 : ℚ) * p.2)).sum
  let sxx : ℚ := (pts.map (fun p => (p.1 : ℚ) ^ 2)).sum
  (n * sxy - sx * sy) / (n * sxx - sx ^ 2)

/-- Population variance (numpy `.std()` uses ddof = 0; the standard deviation is
its real square root). -/
def listVariance (xs : List ℚ) : ℚ :=
  listMean (xs.map (fun x => (x - listMean xs) ^ 2))

/-- Mean demand of the rows falling on a given day of week, `none` when the
group is empty (the `weekly_pattern` groupby of `forecast_demand`). -/
def weeklyPatternMean (rows : List DemandRow) (dow : ℤ) : Option ℚ :=
  let ds := (rows.filter (fun r => r.date % 7 == dow)).map (fun r => r.demand)
  if ds.isEmpty then none else some (listMean ds)

/-- Result dict of `forecast_demand`. -/
structure ForecastResult where
  historical_dates : List ℤ
  historical_demand : List ℚ
  forecast_dates : List ℤ
  forecast_demand : List ℝ
  confidence_upper : List ℝ
  confidence_lower : List ℝ
  trend : ℚ
  avg_demand : ℚ

/-- Embedding of `forecast_demand(demand_data, product_id, days_ahead)`.
`sample i` is the i-th draw of the fallback sample generation
(`np.random.poisson(150) + np.random.randint(-20, 20)`), `noise i` the i-th
`np.random.normal(0, 5)` draw of the forecast loop, and `today` is
`datetime.now()` as a day number. -/
noncomputable def forecast_demand (demand_data : List DemandRow) (product_id : ℕ)
    (days_ahead : ℕ) (sample : ℕ → ℚ) (noise : ℕ → ℝ) (today : ℤ) : ForecastResult :=
  let filtered := demand_data.filter (fun r => r.product_id == product_id)
  let product_demand :=
    if filtered.isEmpty then
      (List.range 60).map (fun i =>
        { date := today - 59 + i, product_id := product_id, demand := sample i })
    else filtered
  let product_demand := product_demand.mergeSort (fun a b => a.date ≤ b.date)
  let demands := product_demand.map (fun r => r.demand)
  let recent_demand := demands.drop (demands.length - 30)
  let trend := slopeFit recent_demand
  let last_demand := listMean recent_demand
  let max_date := ((product_demand.map (fun r => r.date)).max?).getD 0
  let forecast_dates := (List.range days_ahead).map (fun i => max_date + 1 + (i : ℤ))
  let forecast_values : List ℝ := (List.range days_ahead).map (fun (i : ℕ) =>
    let date := max_date + 1 + (i : ℤ)
    let day_of_week := date % 7
    let base_forecast := last_demand + trend * (i : ℚ)
    let seasonal_factor : ℚ :=
      match weeklyPatternMean product_demand day_of_week with
      | some m => m / last_demand
      | none => 1.0
    max 0 (((base_forecast * seasonal_factor : ℚ) : ℝ) + noise i))
  let std_dev : ℝ := Real.sqrt ((listVariance recent_demand : ℚ) : ℝ)
  let confidence_upper := forecast_values.map (fun f => f + 1.96 * std_dev)
  let confidence_lower := forecast_values.map (fun f => max 0 (f - 1.96 * std_dev))
  { historical_dates := product_demand.map (fun r => r.date)
    historical_demand := demands
    forecast_dates := forecast_dates
    forecast_demand := forecast_values
    confidence_upper := confidence_upper
    confidence_lower := confidence_lower
    trend := trend
    avg_demand := last_demand }

/-- Result dict of `calculate_reorder_point`. -/
structure ReorderResult where
  reorder_point : ℚ
  reorder_quantity : ℝ
  economic_order_qty : ℝ
  predicted_demand : ℚ
  safety_stock : ℚ
  lead_time : ℚ
  current_stock : ℚ

/-- Embedding of `calculate_reorder_point(product_row)`.  `u` is the value
drawn by `np.random.uniform(0.8, 1.2)`. -/
noncomputable def calculate_reorder_point (product_row : InventoryRow) (u : ℚ) :
    ReorderResult :=
  let annual_demand : ℚ := 365 * 10
  let ordering_cost : ℚ := 100
  let holding_cost : ℚ := product_row.unit_cost * 0.25
  let eoq : ℝ := Real.sqrt (((2 * annual_demand * ordering_cost) / holding_cost : ℚ) : ℝ)
  let avg_daily_demand : ℚ := 10
  let lead_time := product_row.lead_time_days
  let safety_stock := product_row.safety_stock
  let reorder_point := avg_daily_demand * lead_time + safety_stock
  let predicted_demand := avg_daily_demand * 7 * u
  let current_stock := product_row.current_stock
  let stock_deficit : ℚ := max 0 (safety_stock - current_stock)
  { reorder_point := reorder_point
    reorder_quantity := eoq + (stock_deficit : ℝ)
    economic_order_qty := eoq
    predicted_demand := predicted_demand
    safety_stock := safety_stock
    lead_time := lead_time
    current_stock := current_stock }

/-- Embedding of `calculate_inventory_health(inventory_data)`.  The source
assigns `inventory_data['stock_value'] = current_stock * unit_cost`, mutating
the dataframe it receives; the second component of the result is the state of
that dataframe when the function returns. -/
def calculate_inventory_health (inventory_data : List InventoryRow) :
    ℚ × List InventoryRow :=
  let n : ℚ := inventory_data.length
  let above_safety : ℚ :=
    (inventory_data.countP (fun p => decide (p.current_stock ≥ p.safety_stock)) : ℚ)
  let stock_adequacy := above_safety / n * 40
  let overstock : ℚ :=
    (inventory_data.countP (fun p => decide (p.current_stock > p.safety_stock * 3)) : ℚ)
  let turnover_score := (n - overstock) / n * 30
  let updated := inventory_data.map
    (fun p => { p with stock_value := some (p.current_stock * p.unit_cost) })
  let stock_values := updated.map (fun p => (p.stock_value).getD 0)
  let max_value_share := (stock_values.max?).getD 0 / stock_values.sum
  let distribution_score : ℚ :=
    if max_value_share < 0.5 then (1 - max_value_share) * 30 else 15
  (stock_adequacy + turnover_score + distribution_score, updated)

/-! ## src/utils/data_processing.py

The numpy global generator is modelled as a deterministic state machine on `ℕ`:
`np.random.seed(n)` resets the state to a value determined by `n` alone, and
each draw advances the state by a fixed (linear congruential) update.  The
concrete update stands in for MT19937; the claims about this module depend only
on the generator being a deterministic function of the seeded state. -/

/-- State update of the modelled generator: one draw produces a value and the
next state. -/
def rngNext (s : ℕ) : ℕ × ℕ :=
  let s2 := (s * 1103515245 + 12345) % 2147483648
  (s2, s2)

/-- Embedding of `np.random.seed(n)`: the global state after seeding is a
function of `n` alone. -/
def npSeed (n : ℕ) : ℕ := n

/-- Embedding of one `np.random.randint(lo, hi)` draw: a value in [lo, hi). -/
def randint (lo hi : ℤ) (s : ℕ) : ℤ × ℕ :=
  let (v, s2) := rngNext s
  (lo + (v : ℤ) % (hi - lo), s2)

/-- Embedding of one `np.random.uniform(lo, hi)` draw as a rational in [lo, hi). -/
def uniformQ (lo hi : ℚ) (s : ℕ) : ℚ × ℕ :=
  let (v, s2) := rngNext s
  (lo + (hi - lo) * ((v % 1000 : ℕ) : ℚ) / 1000, s2)

/-- Threads the generator state through a list of draws. -/
def mapState {α β : Type} (f : α → ℕ → β × ℕ) : List α → ℕ → List β × ℕ
  | [], s => ([], s)
  | a :: as, s =>
    let (b, s2) := f a s
    let (bs, s3) := mapState f as s2
    (b :: bs, s3)

/-- A vectorized draw of size `n` (e.g. `np.random.randint(lo, hi, n)`). -/
def drawList {β : Type} (draw : ℕ → β × ℕ) (n : ℕ) (s : ℕ) : List β × ℕ :=
  mapState (fun _ s => draw s) (List.range n) s

/-- Two-decimal rounding of `.round(2)` (numpy resolves exact half-cent ties to
even; `round` resolves them upward — the difference is immaterial here). -/
def round2 (c : ℚ) : ℚ := ((round (c * 100) : ℤ) : ℚ) / 100

/-- The 20 hard-coded product names of `generate_demo_data`. -/
def demo_product_names : List String :=
  ["Industrial Bearing Type A", "Steel Plates Grade B", "Hydraulic Pump Unit",
   "Electric Motor 5HP", "Control Panel Assembly", "Conveyor Belt Section",
   "Safety Valve Kit", "Lubricant Premium Grade", "Fastener Set M12",
   "Gasket Seal Pack", "Pressure Sensor Digital", "Cable Wire 10mm",
   "Junction Box IP67", "Filter Cartridge HEPA", "Coupling Flexible",
   "Switch Limit Type C", "Relay Module 24V", "Pneumatic Cylinder",
   "Solenoid Valve 2-way", "Bearing Housing Unit"]

/-- The 8 hard-coded operational areas of `generate_demo_data`. -/
def demo_operational_areas : List String :=
  ["Receiving Area", "Storage Zone A", "Storage Zone B", "Picking Area",
   "Packing Station", "Loading Area", "Quality Control", "Shipping Dock"]

/-- One demand record of the demo-data inner loop: a base `randint(5, 20)`
draw, weekend damping `int(base * 0.6)`, the sinusoidal month factor
`1 + 0.1 * sin(day / 30 * 2 * pi)` over the civil day of month `dom d`, a
`randint(-3, 4)` jitter, clamped at 0. -/
noncomputable def demoDemandRecord (dom : ℤ → ℕ) (pid : ℕ) (d : ℤ) (s : ℕ) :
    DemandRow × ℕ :=
  let (b, s1) := randint 5 20 s
  let base_demand : ℤ := if d % 7 = 5 ∨ d % 7 = 6 then ⌊(b : ℚ) * 0.6⌋ else b
  let month_factor : ℝ := 1 + 0.1 * Real.sin (((dom d : ℕ) : ℝ) / 30 * (2 * Real.pi))
  let (r, s2) := randint (-3) 4 s1
  let demand : ℤ := max 0 (⌊(base_demand : ℝ) * month_factor⌋ + r)
  ({ date := d, product_id := pid, demand := (demand : ℚ) }, s2)

/-- The demand-history generation of `generate_demo_data`: for each of the 20
products, one record per day over the 180 days ending `today`. -/
noncomputable def demoDemand (dom : ℤ → ℕ) (today : ℤ) (s : ℕ) :
    List DemandRow × ℕ :=
  let pairs := (List.range 20).flatMap
    (fun p => (List.range 180).map (fun t => (p + 1, today - 179 + (t : ℤ))))
  mapState (fun pd s => demoDemandRecord dom pd.1 pd.2 s) pairs s

/-- The body of `generate_demo_data()` from `np.random.seed(42)` on: every draw
starts from the seeded state, so the computation is a function of the current
date (and calendar) alone.  `today` is `datetime.now()` as a day number and
`dom` the civil-calendar day-of-month lookup.  The second component is the
generator state on return. -/
noncomputable def generate_demo_data_seeded (today : ℤ) (dom : ℤ → ℕ) :
    (List InventoryRow × List MachineRow × List DemandRow × List OperationsRow) × ℕ :=
  let s0 := npSeed 42
  let num_products := 20
  let (stocks, s1) := drawList (randint 30 300) num_products s0
  let (safeties, s2) := drawList (randint 50 100) num_products s1
  let (leads, s3) := drawList (randint 3 14) num_products s2
  let (costs, s4) := drawList (uniformQ 10 500) num_products s3
  let inventory_df : List InventoryRow := (List.range num_products).map (fun i =>
    { product_id := i + 1
      product_name := demo_product_names.getD i ""
      current_stock := ((stocks.getD i 0 : ℤ) : ℚ)
      safety_stock := ((safeties.getD i 0 : ℤ) : ℚ)
      lead_time_days := ((leads.getD i 0 : ℤ) : ℚ)
      unit_cost := round2 (costs.getD i 0)
      stock_value := none })
  let num_machines := 10
  let (temps, s5) := drawList (uniformQ 65 95) num_machines s4
  let (vibs, s6) := drawList (uniformQ 0.8 4.5) num_machines s5
  let (hours, s7) := drawList (randint 1000 8000) num_machines s6
  let machines_df : List MachineRow := (List.range num_machines).map (fun i =>
    { machine_id := i + 1
      machine_name := "Machine " ++ toString (i + 1)
      temperature := temps.getD i 0
      vibration := vibs.getD i 0
      operational_hours := ((hours.getD i 0 : ℤ) : ℚ)
      last_maintenance := today - 45 * ((num_machines - 1 - i : ℕ) : ℤ) })
  let (demand_df, s8) := demoDemand dom today s7
  let n_areas := demo_operational_areas.length
  let (utils, s9) := drawList (uniformQ 60 95) n_areas s8
  let (prods, s10) := drawList (uniformQ 70 95) n_areas s9
  let (downs, s11) := drawList (uniformQ 0.5 3.5) n_areas s10
  let (effs, s12) := drawList (uniformQ 75 95) n_areas s11
  let (thrus, s13) := drawList (randint 100 500) n_areas s12
  let operations_df : List OperationsRow := (List.range n_areas).map (fun i =>
    { area := demo_operational_areas.getD i ""
      utilization := utils.getD i 0
      productivity_score := prods.getD i 0
      downtime_hours := downs.getD i 0
      efficiency_rate := effs.getD i 0
      throughput := ((thrus.getD i 0 : ℤ) : ℚ) })
  ((inventory_df, machines_df, demand_df, operations_df), s13)

/-- Embedding of `generate_demo_data()`.  `rng` is the incoming global
generator state; the first statement of the source, `np.random.seed(42)`,
discards it, so the function is `generate_demo_data_seeded` on the remaining
arguments. -/
noncomputable def generate_demo_data (today : ℤ) (dom : ℤ → ℕ) (rng : ℕ) :
    (List InventoryRow × List MachineRow × List DemandRow × List OperationsRow) × ℕ :=
  generate_demo_data_seeded today dom

/-- Python exception classes relevant to `load_data`: `FileNotFoundError`
versus every other exception a `pd.read_csv` call may raise. -/
inductive ReadError where
  | fileNotFound
  | other (msg : String)
  deriving Repr, DecidableEq

/-- Outcome of the four `pd.read_csv` calls: each file either parses to rows or
raises.  (The `pd.to_datetime` conversion of the demand `date` column is the
identity here, dates being day numbers already.) -/
structure FileEnv where
  inventory_csv : Except ReadError (List InventoryRow)
  machinery_csv : Except ReadError (List MachineRow)
  demand_csv : Except ReadError (List DemandRow)
  operations_csv : Except ReadError (List OperationsRow)

/-- The body of the `try` block of `load_data`: the four reads in source order,
stopping at the first raised exception. -/
def read4 (env : FileEnv) :
    Except ReadError
      (List InventoryRow × List MachineRow × List DemandRow × List OperationsRow) :=
  match env.inventory_csv with
  | .error e => .error e
  | .ok inventory_df =>
    match env.machinery_csv with
    | .error e => .error e
    | .ok machines_df =>
      match env.demand_csv with
      | .error e => .error e
      | .ok demand_df =>
        match env.operations_csv with
        | .error e => .error e
        | .ok operations_df => .ok (inventory_df, machines_df, demand_df, operations_df)

/-- First exception raised inside the `try` block, if any. -/
def firstReadError (env : FileEnv) : Option ReadError :=
  match read4 env with
  | .ok _ => none
  | .error e => some e

/-- Embedding of `load_data()`: the `except FileNotFoundError` clause catches
exactly that class and falls back to `generate_demo_data()`; any other
exception propagates to the caller. -/
noncomputable def load_data (env : FileEnv) (today : ℤ) (dom : ℤ → ℕ) (rng : ℕ) :
    Except ReadError
      (List InventoryRow × List MachineRow × List DemandRow × List OperationsRow) :=
  match read4 env with
  | .ok v => .ok v
  | .error .fileNotFound => .ok (generate_demo_data today dom rng).1
  | .error (.other msg) => .error (.other msg)

/-! ## Sample inputs used by the witnesses -/

/-- A concrete machine row (hot and vibrating). -/
def sampleMachineRow : MachineRow :=
  { machine_id := 1
    machine_name := "Machine 1"
    temperature := 92
    vibration := 4.2
    operational_hours := 6500
    last_maintenance := 0 }

/-- A concrete inventory row. -/
def sampleInventoryRow : InventoryRow :=
  { product_id := 1
    product_name := "Industrial Bearing Type A"
    current_stock := 100
    safety_stock := 50
    lead_time_days := 5
    unit_cost := 50
    stock_value := none }

/-- A file environment where the inventory CSV is missing and the other three
reads would succeed. -/
def sampleMissingEnv : FileEnv :=
  { inventory_csv := .error .fileNotFound
    machinery_csv := .ok []
    demand_csv := .ok []
    operations_csv := .ok [] }

/-- A file environment where reading the inventory CSV raises an exception
other than FileNotFoundError. -/
def sampleParseErrorEnv : FileEnv :=
  { inventory_csv := .error (.other "ParserError")
    machinery_csv := .ok []
    demand_csv := .ok []
    operations_csv := .ok [] }

/-! ## Theorems -/

/-- C9: for every machine row (whatever its temperature, vibration and
operational hours), and every confidence draw and date, `estimate_rul` returns
`rul_hours ≥ 24` and `rul_days = rul_hours / 24`: the estimated RUL is never
below one day. -/
theorem estimate_rul_min_one_day (machine : MachineRow) (c today : ℚ) :
    24 ≤ (estimate_rul machine c today).rul_hours ∧
      (estimate_rul machine c today).rul_days =
        (estimate_rul machine c today).rul_hours / 24 := by
  refine ⟨?_, rfl⟩
  exact le_max_left _ _

/-- C10: for every machine row and every random noise draw, `predict_failure`
returns `failure_probability` in [0, 1], and the risk level is High exactly
when it exceeds 0.6, Medium exactly when it lies in (0.3, 0.6], and Low
otherwise (i.e. exactly when it is at most 0.3). -/
theorem predict_failure_spec (machine : MachineRow) (noise : ℚ) :
    0 ≤ (predict_failure machine noise).failure_probability ∧
    (predict_failure machine noise).failure_probability ≤ 1 ∧
    ((predict_failure machine noise).risk_level = RiskLevel.High ↔
      0.6 < (predict_failure machine noise).failure_probability) ∧
    ((predict_failure machine noise).risk_level = RiskLevel.Medium ↔
      (0.3 < (predict_failure machine noise).failure_probability ∧
        (predict_failure machine noise).failure_probability ≤ 0.6)) ∧
    ((predict_failure machine noise).risk_level = RiskLevel.Low ↔
      (predict_failure machine noise).failure_probability ≤ 0.3) := by
  have hfp : (predict_failure machine noise).failure_probability =
      max 0.0 (min 1.0
        ((max 0 (min 1 ((machine.temperature - 60) / 40)) * 0.45 +
          max 0 (min 1 (machine.vibration / 5)) * 0.35 +
          max 0 (min 1 (machine.operational_hours / 10000)) * 0.20) + noise)) := rfl
  have hrl : (predict_failure machine noise).risk_level =
      (if (predict_failure machine noise).failure_probability > 0.6 then RiskLevel.High
       else if (predict_failure machine noise).failure_probability > 0.3 then RiskLevel.Medium
       else RiskLevel.Low) := rfl
  have h0 : 0 ≤ (predict_failure machine noise).failure_probability := by
    rw [hfp]; exact le_trans (by norm_num) (le_max_left _ _)
  have h1 : (predict_failure machine noise).failure_probability ≤ 1 := by
    rw [hfp]
    refine max_le (by norm_num) (le_trans (min_le_left _ _) (by norm_num))
  refine ⟨h0, h1, ?_, ?_, ?_⟩ <;> rw [hrl] <;> split_ifs with ha hb
  · exact iff_of_true rfl ha
  · exact iff_of_false (fun hcon => nomatch hcon) ha
  · exact iff_of_false (fun hcon => nomatch hcon) ha
  · exact iff_of_false (fun hcon => nomatch hcon)
      (fun hcon => absurd ha (not_lt.mpr hcon.2))
  · exact iff_of_true rfl ⟨hb, le_of_not_lt ha⟩
  · exact iff_of_false (fun hcon => nomatch hcon) (fun hcon => hb hcon.1)
  · refine iff_of_false (fun hcon => nomatch hcon) (fun hcon => ?_)
    have hx := lt_of_lt_of_le ha hcon
    norm_num at hx
  · exact iff_of_false (fun hcon => nomatch hcon)
      (fun hcon => absurd hb (not_lt.mpr hcon))
  · exact iff_of_true rfl (le_of_not_lt hb)

/-- C4: for every product row with positive `unit_cost` (and every random
demand-variation draw), the `economic_order_qty` computed by
`calculate_reorder_point` via the EOQ square-root formula is non-negative. -/
theorem calculate_reorder_point_eoq_nonneg (product_row : InventoryRow) (u : ℚ)
    (h : 0 < product_row.unit_cost) :
    0 ≤ (calculate_reorder_point product_row u).economic_order_qty :=
  Real.sqrt_nonneg _

/-- Witness for C4 at a concrete inventory row. -/
theorem calculate_reorder_point_eoq_nonneg_witness :
    0 < sampleInventoryRow.unit_cost ∧
      0 ≤ (calculate_reorder_point sampleInventoryRow 1).economic_order_qty :=
  ⟨by norm_num [sampleInventoryRow],
    calculate_reorder_point_eoq_nonneg sampleInventoryRow 1
      (by norm_num [sampleInventoryRow])⟩

/-- C1: for every non-empty machine dataframe, non-empty inventory dataframe
and every value of the injected operational risk (the support of
`np.random.uniform(5, 15)`), `calculate_risk_score` lies in [0, 100]. -/
theorem calculate_risk_score_in_range (machine_data : List MachineRow)
    (inventory_data : List InventoryRow) (operational_risk : ℚ)
    (hm : machine_data ≠ []) (hi : inventory_data ≠ [])
    (hlo : 5 ≤ operational_risk) (hhi : operational_risk ≤ 15) :
    0 ≤ calculate_risk_score machine_data inventory_data operational_risk ∧
      calculate_risk_score machine_data inventory_data operational_risk ≤ 100 := by
  have hmlen : 0 < ((machine_data.length : ℚ)) := by
    exact_mod_cast List.length_pos.mpr hm
  have hilen : 0 < ((inventory_data.length : ℚ)) := by
    exact_mod_cast List.length_pos.mpr hi
  have htc : ((machine_data.countP (fun m => decide (m.temperature > 85)) : ℕ) : ℚ) ≤
      (machine_data.length : ℚ) := by
    exact_mod_cast List.countP_le_length _
  have hvc : ((machine_data.countP (fun m => decide (m.vibration > 3.5)) : ℕ) : ℚ) ≤
      (machine_data.length : ℚ) := by
    exact_mod_cast List.countP_le_length _
  have hic : ((inventory_data.countP
      (fun p => decide (p.current_stock < p.safety_stock)) : ℕ) : ℚ) ≤
      (inventory_data.length : ℚ) := by
    exact_mod_cast List.countP_le_length _
  have htc0 : (0 : ℚ) ≤ (machine_data.countP (fun m => decide (m.temperature > 85)) : ℕ) := by
    positivity
  have hvc0 : (0 : ℚ) ≤ (machine_data.countP (fun m => decide (m.vibration > 3.5)) : ℕ) := by
    positivity
  have hic0 : (0 : ℚ) ≤ (inventory_data.countP
      (fun p => decide (p.current_stock < p.safety_stock)) : ℕ) := by
    positivity
  have ht1 : ((machine_data.countP (fun m => decide (m.temperature > 85)) : ℕ) : ℚ) /
      (machine_data.length : ℚ) ≤ 1 := (div_le_one hmlen).mpr htc
  have hv1 : ((machine_data.countP (fun m => decide (m.vibration > 3.5)) : ℕ) : ℚ) /
      (machine_data.length : ℚ) ≤ 1 := (div_le_one hmlen).mpr hvc
  have hi1 : ((inventory_data.countP
      (fun p => decide (p.current_stock < p.safety_stock)) : ℕ) : ℚ) /
      (inventory_data.length : ℚ) ≤ 1 := (div_le_one hilen).mpr hic
  have ht0 : (0 : ℚ) ≤ ((machine_data.countP (fun m => decide (m.temperature > 85)) : ℕ) : ℚ) /
      (machine_data.length : ℚ) := div_nonneg htc0 hmlen.le
  have hv0 : (0 : ℚ) ≤ ((machine_data.countP (fun m => decide (m.vibration > 3.5)) : ℕ) : ℚ) /
      (machine_data.length : ℚ) := div_nonneg hvc0 hmlen.le
  have hi0 : (0 : ℚ) ≤ ((inventory_data.countP
      (fun p => decide (p.current_stock < p.safety_stock)) : ℕ) : ℚ) /
      (inventory_data.length : ℚ) := div_nonneg hic0 hilen.le
  simp only [calculate_risk_score]
  constructor
  · exact le_min (by norm_num) (by linarith)
  · exact min_le_left _ _

/-- Witness for C1 at a one-row machine dataframe, a one-row inventory
dataframe and operational risk 10. -/
theorem calculate_risk_score_in_range_witness :
    ([sampleMachineRow] : List MachineRow) ≠ [] ∧
    ([sampleInventoryRow] : List InventoryRow) ≠ [] ∧
    (5 : ℚ) ≤ 10 ∧ (10 : ℚ) ≤ 15 ∧
    (0 ≤ calculate_risk_score [sampleMachineRow] [sampleInventoryRow] 10 ∧
      calculate_risk_score [sampleMachineRow] [sampleInventoryRow] 10 ≤ 100) :=
  ⟨by simp, by simp, by norm_num, by norm_num,
    calculate_risk_score_in_range [sampleMachineRow] [sampleInventoryRow] 10
      (by simp) (by simp) (by norm_num) (by norm_num)⟩

/-- C5: under non-empty machine and inventory dataframes, the two divisions of
`calculate_risk_score` have non-zero divisors: the guarded variant (which
returns `none` exactly when a divisor is zero) agrees with the unguarded
source computation, for every operational-risk draw. -/
theorem calculate_risk_score_checked_eq (machine_data : List MachineRow)
    (inventory_data : List InventoryRow) (operational_risk : ℚ)
    (hm : machine_data ≠ []) (hi : inventory_data ≠ []) :
    calculate_risk_score_checked machine_data inventory_data operational_risk =
      some (calculate_risk_score machine_data inventory_data operational_risk) := by
  simp [calculate_risk_score_checked, List.length_eq_zero, hm, hi]

/-- Witness for C5 at one-row dataframes. -/
theorem calculate_risk_score_checked_eq_witness :
    ([sampleMachineRow] : List MachineRow) ≠ [] ∧
    ([sampleInventoryRow] : List InventoryRow) ≠ [] ∧
    calculate_risk_score_checked [sampleMachineRow] [sampleInventoryRow] 10 =
      some (calculate_risk_score [sampleMachineRow] [sampleInventoryRow] 10) :=
  ⟨by simp, by simp,
    calculate_risk_score_checked_eq [sampleMachineRow] [sampleInventoryRow] 10
      (by simp) (by simp)⟩

/-- C2 counterexample: `calculate_inventory_health` does modify the inventory
dataframe it receives — on a one-row dataframe without a `stock_value` column,
the dataframe after the call differs from the one passed in (the column has
been written onto it). -/
theorem calculate_inventory_health_mutates :
    (calculate_inventory_health [sampleInventoryRow]).2 ≠ [sampleInventoryRow] := by
  decide

/-- C2 amended: the scoring functions are pure in their return value, but
`calculate_inventory_health` writes a `stock_value` column (equal to
`current_stock * unit_cost` in every row) onto the inventory dataframe it
receives; apart from that column, the dataframe's rows and columns are
unchanged. -/
theorem calculate_inventory_health_mutation_exact (inventory_data : List InventoryRow) :
    (calculate_inventory_health inventory_data).2 =
      inventory_data.map
        (fun p => { p with stock_value := some (p.current_stock * p.unit_cost) }) ∧
    ((calculate_inventory_health inventory_data).2).map
        (fun p => { p with stock_value := none }) =
      inventory_data.map (fun p => { p with stock_value := none }) := by
  have h1 : (calculate_inventory_health inventory_data).2 =
      inventory_data.map
        (fun p => { p with stock_value := some (p.current_stock * p.unit_cost) }) := rfl
  refine ⟨h1, ?_⟩
  rw [h1, List.map_map]
  rfl

/-- C3: `load_data` catches exactly `FileNotFoundError`: when the first failing
CSV read of the `try` block raises FileNotFoundError the function returns
`generate_demo_data()` instead of propagating, when it raises any other
exception that exception propagates, and when all four reads succeed the four
parsed dataframes are returned. -/
theorem load_data_fallback (env : FileEnv) (today : ℤ) (dom : ℤ → ℕ) (rng : ℕ) :
    (firstReadError env = some ReadError.fileNotFound →
      load_data env today dom rng = .ok (generate_demo_data today dom rng).1) ∧
    (∀ msg, firstReadError env = some (ReadError.other msg) →
      load_data env today dom rng = .error (.other msg)) ∧
    (firstReadError env = none →
      load_data env today dom rng = read4 env) := by
  cases h : read4 env with
  | ok v => simp [load_data, firstReadError, h]
  | error e =>
    cases e with
    | fileNotFound => simp [load_data, firstReadError, h]
    | other msg => simp [load_data, firstReadError, h]

/-- Witness for C3: with the inventory CSV missing, `load_data` returns the
demo data; with a parse error instead, the error propagates. -/
theorem load_data_fallback_witness :
    (firstReadError sampleMissingEnv = some ReadError.fileNotFound ∧
      load_data sampleMissingEnv 0 (fun _ => 1) 0 =
        .ok (generate_demo_data 0 (fun _ => 1) 0).1) ∧
    (firstReadError sampleParseErrorEnv = some (ReadError.other "ParserError") ∧
      load_data sampleParseErrorEnv 0 (fun _ => 1) 0 =
        .error (.other "ParserError")) :=
  ⟨⟨rfl, (load_data_fallback sampleMissingEnv 0 (fun _ => 1) 0).1 rfl⟩,
   ⟨rfl, (load_data_fallback sampleParseErrorEnv 0 (fun _ => 1) 0).2.1 "ParserError" rfl⟩⟩

/-- C7: `generate_demo_data` seeds the generator with the fixed seed 42 before
drawing, so for a fixed current date (and calendar) any two invocations — from
arbitrary incoming generator states — return identical dataframes, randomly
generated columns included. -/
theorem generate_demo_data_deterministic (today : ℤ) (dom : ℤ → ℕ) (s1 s2 : ℕ) :
    (generate_demo_data today dom s1).1 = (generate_demo_data today dom s2).1 :=
  congrArg Prod.fst (rfl : generate_demo_data_seeded today dom = generate_demo_data_seeded today dom)

/-- C6: for every demand history, product id, positive `days_ahead`, fallback
sample and noise draw, `forecast_demand` returns `forecast_demand` and
`confidence_lower` lists of exactly `days_ahead` elements, every element of
both being non-negative. -/
theorem forecast_demand_spec (demand_data : List DemandRow) (product_id : ℕ)
    (days_ahead : ℕ) (sample : ℕ → ℚ) (noise : ℕ → ℝ) (today : ℤ)
    (h : 0 < days_ahead) :
    (forecast_demand demand_data product_id days_ahead sample noise today).forecast_demand.length
        = days_ahead ∧
    (forecast_demand demand_data product_id days_ahead sample noise today).confidence_lower.length
        = days_ahead ∧
    (∀ x ∈ (forecast_demand demand_data product_id days_ahead sample noise today).forecast_demand,
      0 ≤ x) ∧
    (∀ x ∈ (forecast_demand demand_data product_id days_ahead sample noise today).confidence_lower,
      0 ≤ x) := by
  refine ⟨?_, ?_, ?_, ?_⟩
  · simp [forecast_demand]
  · simp [forecast_demand]
  · intro x hx
    simp only [forecast_demand, List.mem_map, List.mem_range] at hx
    obtain ⟨i, _, rfl⟩ := hx
    exact le_max_left _ _
  · intro x hx
    simp only [forecast_demand, List.mem_map, List.mem_range] at hx
    obtain ⟨f, _, rfl⟩ := hx
    exact le_max_left _ _

/-- Witness for C6 at a concrete empty history, 14 days ahead, zero draws. -/
theorem forecast_demand_spec_witness :
    0 < 14 ∧
    ((forecast_demand [] 1 14 (fun _ => 0) (fun _ => 0) 0).forecast_demand.length = 14 ∧
     (forecast_demand [] 1 14 (fun _ => 0) (fun _ => 0) 0).confidence_lower.length = 14 ∧
     (∀ x ∈ (forecast_demand [] 1 14 (fun _ => 0) (fun _ => 0) 0).forecast_demand, 0 ≤ x) ∧
     (∀ x ∈ (forecast_demand [] 1 14 (fun _ => 0) (fun _ => 0) 0).confidence_lower, 0 ≤ x)) :=
  ⟨by norm_num, forecast_demand_spec [] 1 14 (fun _ => 0) (fun _ => 0) 0 (by norm_num)⟩

/-- Counting over a mapped recommendation block whose images all falsify
the predicate. -/
theorem countP_map_const_false {α : Type} (p : Recommendation → Bool)
    (f : α → Recommendation) (l : List α) (h : ∀ a, p (f a) = false) :
    (l.map f).countP p = 0 := by
  rw [List.countP_map]
  exact List.countP_eq_zero.mpr (fun a _ => by simp [Function.comp_apply, h a])

/-- Counting over a mapped recommendation block whose images all satisfy
the predicate. -/
theorem countP_map_const_true {α : Type} (p : Recommendation → Bool)
    (f : α → Recommendation) (l : List α) (h : ∀ a, p (f a) = true) :
    (l.map f).countP p = l.length := by
  rw [List.countP_map]
  exact List.countP_eq_length.mpr (fun a _ => by simp [Function.comp_apply, h a])

/-- The output of `generate_recommendations` is a permutation of the five
filter-and-format blocks appended in source order. -/
theorem generate_recommendations_perm (machine_data : List MachineRow)
    (inventory_data : List InventoryRow) (operations_data : List OperationsRow) :
    (generate_recommendations machine_data inventory_data operations_data).Perm
      (((machine_data.filter (fun m => decide (m.temperature > 85))).map criticalRec) ++
       (((inventory_data.filter
            (fun p => decide (p.current_stock < p.safety_stock))).take 3).map lowStockRec) ++
       (((machine_data.filter
            (fun m => decide (m.temperature > 80 ∧ m.temperature ≤ 85))).take 2).map
          mediumRiskRec) ++
       (((operations_data.filter (fun o => decide (o.utilization > 85))).take 2).map
          bottleneckRec) ++
       (((inventory_data.filter
            (fun p => decide (p.current_stock > p.safety_stock * 2.5))).take 2).map
          overstockRec)) :=
  List.mergeSort_perm _ _

/-- C8: for every trio of dataframes, `generate_recommendations` returns a
list sorted non-decreasingly by priority, with exactly one priority-1
recommendation per machine with temperature > 85, at most 3 low-stock
recommendations, at most 2 medium-risk machine recommendations, at most 2
bottleneck recommendations, and at most 2 overstock recommendations. -/
theorem generate_recommendations_spec (machine_data : List MachineRow)
    (inventory_data : List InventoryRow) (operations_data : List OperationsRow) :
    (generate_recommendations machine_data inventory_data operations_data).Pairwise
      (fun a b => a.priority ≤ b.priority) ∧
    (generate_recommendations machine_data inventory_data operations_data).countP
        (fun r => r.priority == 1) =
      (machine_data.filter (fun m => decide (m.temperature > 85))).length ∧
    (generate_recommendations machine_data inventory_data operations_data).countP
        (fun r => r.priority == 2 && r.category == "Inventory Management") ≤ 3 ∧
    (generate_recommendations machine_data inventory_data operations_data).countP
        (fun r => r.priority == 2 && r.category == "Predictive Maintenance") ≤ 2 ∧
    (generate_recommendations machine_data inventory_data operations_data).countP
        (fun r => r.category == "Operations Optimization") ≤ 2 ∧
    (generate_recommendations machine_data inventory_data operations_data).countP
        (fun r => r.category == "Inventory Optimization") ≤ 2 := by
  have hperm := generate_recommendations_perm machine_data inventory_data operations_data
  have hsplit : ∀ p : Recommendation → Bool,
      (generate_recommendations machine_data inventory_data operations_data).countP p =
        ((machine_data.filter (fun m => decide (m.temperature > 85))).map criticalRec).countP p +
        (((inventory_data.filter
            (fun q => decide (q.current_stock < q.safety_stock))).take 3).map
          lowStockRec).countP p +
        (((machine_data.filter
            (fun m => decide (m.temperature > 80 ∧ m.temperature ≤ 85))).take 2).map
          mediumRiskRec).countP p +
        (((operations_data.filter (fun o => decide (o.utilization > 85))).take 2).map
          bottleneckRec).countP p +
        (((inventory_data.filter
            (fun q => decide (q.current_stock > q.safety_stock * 2.5))).take 2).map
          overstockRec).countP p := by
    intro p
    rw [List.Perm.countP_eq p hperm]
    simp only [List.countP_append]
  refine ⟨?_, ?_, ?_, ?_, ?_, ?_⟩
  · unfold generate_recommendations
    refine List.Pairwise.imp (fun h => of_decide_eq_true h)
      (List.sorted_mergeSort ?_ ?_ _)
    · intro a b c hab hbc
      exact decide_eq_true (le_trans (of_decide_eq_true hab) (of_decide_eq_true hbc))
    · intro a b
      rcases Nat.le_total a.priority b.priority with h | h <;> simp [h]
  · rw [hsplit,
      countP_map_const_true (fun r => r.priority == 1) criticalRec _ (fun a => rfl),
      countP_map_const_false (fun r => r.priority == 1) lowStockRec _ (fun a => rfl),
      countP_map_const_false (fun r => r.priority == 1) mediumRiskRec _ (fun a => rfl),
      countP_map_const_false (fun r => r.priority == 1) bottleneckRec _ (fun a => rfl),
      countP_map_const_false (fun r => r.priority == 1) overstockRec _ (fun a => rfl)]
    omega
  · rw [hsplit,
      countP_map_const_false
        (fun r => r.priority == 2 && r.category == "Inventory Management")
        criticalRec _ (fun a => rfl),
      countP_map_const_false
        (fun r => r.priority == 2 && r.category == "Inventory Management")
        mediumRiskRec _ (fun a => rfl),
      countP_map_const_false
        (fun r => r.priority == 2 && r.category == "Inventory Management")
        bottleneckRec _ (fun a => rfl),
      countP_map_const_false
        (fun r => r.priority == 2 && r.category == "Inventory Management")
        overstockRec _ (fun a => rfl)]
    simp only [Nat.zero_add, Nat.add_zero]
    refine le_trans (List.countP_le_length _) ?_
    rw [List.length_map]
    exact List.length_take_le _ _
  · rw [hsplit,
      countP_map_const_false
        (fun r => r.priority == 2 && r.category == "Predictive Maintenance")
        criticalRec _ (fun a => rfl),
      countP_map_const_false
        (fun r => r.priority == 2 && r.category == "Predictive Maintenance")
        lowStockRec _ (fun a => rfl),
      countP_map_const_false
        (fun r => r.priority == 2 && r.category == "Predictive Maintenance")
        bottleneckRec _ (fun a => rfl),
      countP_map_const_false
        (fun r => r.priority == 2 && r.category == "Predictive Maintenance")
        overstockRec _ (fun a => rfl)]
    simp only [Nat.zero_add, Nat.add_zero]
    refine le_trans (List.countP_le_length _) ?_
    rw [List.length_map]
    exact List.length_take_le _ _
  · rw [hsplit,
      countP_map_const_false (fun r => r.category == "Operations Optimization")
        criticalRec _ (fun a => rfl),
      countP_map_const_false (fun r => r.category == "Operations Optimization")
        lowStockRec _ (fun a => rfl),
      countP_map_const_false (fun r => r.category == "Operations Optimization")
        mediumRiskRec _ (fun a => rfl),
      countP_map_const_false (fun r => r.category == "Operations Optimization")
        overstockRec _ (fun a => rfl)]
    simp only [Nat.zero_add, Nat.add_zero]
    refine le_trans (List.countP_le_length _) ?_
    rw [List.length_map]
    exact List.length_take_le _ _
  · rw [hsplit,
      countP_map_const_false (fun r => r.category == "Inventory Optimization")
        criticalRec _ (fun a => rfl),
      countP_map_const_false (fun r => r.category == "Inventory Optimization")
        lowStockRec _ (fun a => rfl),
      countP_map_const_false (fun r => r.category == "Inventory Optimization")
        mediumRiskRec _ (fun a => rfl),
      countP_map_const_false (fun r => r.category == "Inventory Optimization")
        bottleneckRec _ (fun a => rfl)]
    simp only [Nat.zero_add, Nat.add_zero]
    refine le_trans (List.countP_le_length _) ?_
    rw [List.length_map]
    exact List.length_take_le _ _
